import Mathlib

/-!
Shallow embedding of `src/TrackedObject.py` (pyTracking).

The Python module implements an identity map: a metaclass `TrackedType`
checks the trackable contract at class-definition time, and
`TrackedObject.__new__` consults a per-class registry of weak references so
that constructing an already-live id returns the existing instance.

Modelling choices:
* Instances live in an explicit heap `ptr → Inst`; the registry maps an id to
  a `ptr`.  A weak reference is stale exactly when its `ptr` is no longer in
  the heap; `collect` removes a heap entry without touching the registry,
  which models dropping the last strong reference followed by collection.
* User hooks (`_load`, `reload`, the saved `__init__` alias `_tracked_init`)
  are functions from the id, the positional arguments, the keyword arguments
  and the current payload to the payload after the (possibly partial)
  mutation, together with an optional raised error.  The tracking machinery
  owns the `_id` attribute, so hooks act on the payload component only.
* Construction returns, besides the final state and the result, a trace of
  the hook invocations it performed, recording the exact arguments each hook
  received.
* Execution is sequential: the `RLock` in the source serialises the
  lookup/insert step, so in the single-threaded semantics it is a no-op.
-/

namespace PyTracking

/-- Error values a user hook may raise. -/
abbrev Err := Nat

/-- The user-visible mutable state of an instance (everything but `_id`). -/
abbrev Payload := Nat

/-- Positional arguments (`*args`). -/
abbrev Args := List Nat

/-- Keyword arguments (`**kwargs`), an association list keyed by name. -/
abbrev Kw := List (String × Nat)

/-- A user hook: receives the instance id, the positional and keyword
arguments and the current payload; returns the payload after running
(partial mutations persist even on failure) and the error it raised,
if any. -/
abbrev Hook := Nat → Args → Kw → Payload → Payload × Option Err

/-- `kwargs.get(k)`. -/
def kwGet (kw : Kw) (k : String) : Option Nat :=
  (kw.find? (fun e => e.1 == k)).map (·.2)

/-- Truthiness of `kwargs.get(k)` (absent key is falsy, as is `0`). -/
def kwTruthy (kw : Kw) (k : String) : Bool :=
  match kwGet kw k with
  | some v => v != 0
  | none => false

/-- `del kwargs[k]` (total: removing an absent key is the identity, which
matches the guarded deletions in the source). -/
def kwDel (kw : Kw) (k : String) : Kw :=
  kw.filter (fun e => e.1 != k)

/-- `k in kwargs`. -/
def kwHas (kw : Kw) (k : String) : Bool :=
  (kwGet kw k).isSome

/-- Association-list lookup, i.e. `dict.get`. -/
def alookup {α : Type} (l : List (Nat × α)) (k : Nat) : Option α :=
  (l.find? (fun e => e.1 == k)).map (·.2)

/-- Association-list overwrite, i.e. `dict[k] = v`. -/
def aset {α : Type} (l : List (Nat × α)) (k : Nat) (v : α) : List (Nat × α) :=
  (k, v) :: l.filter (fun e => e.1 != k)

/-- Association-list deletion, i.e. `del dict[k]` on a present key. -/
def aremove {α : Type} (l : List (Nat × α)) (k : Nat) : List (Nat × α) :=
  l.filter (fun e => e.1 != k)

/-- A trackable class as produced by the metaclass: its `_load` hook, its
`reload` hook (the user's own, or the `_load` alias) and the saved user
`__init__` (`_tracked_init`), when one was defined. -/
structure ClassDef where
  load : Hook
  reload : Hook
  trackedInit : Option Hook

/-- The class dictionary (`dct`) handed to `TrackedType.__new__`: which of
the relevant names the class body defines.  `dNew` and `dId` record the mere
presence of `__new__` / `id`; the hook-valued entries carry the hooks. -/
structure Dct where
  dLoad : Option Hook
  dNew : Bool
  dId : Bool
  dReload : Option Hook
  dInit : Option Hook
  dTrackedInit : Option Hook

/-- The bases of the class being defined: either `object` is among them
(the abstract `TrackedObject` itself) or the first base is a trackable
class. -/
inductive Bases where
  | objectBase : Bases
  | trackedBase : ClassDef → Bases

/-- `TrackedType.__new__` (lines 17-32): the class-definition-time contract
checks and dictionary rewrites.  For a class other than `TrackedObject`
itself it requires `_load` in the body, forbids `__new__` and `id` in the
body, aliases `reload` to `_load` when absent, saves a body `__init__` as
`_tracked_init` and replaces `__init__` by the base initialiser. -/
def trackedType_new (bases : Bases) (d : Dct) : Except String Dct :=
  match bases with
  | .objectBase => .ok d
  | .trackedBase _ =>
    match d.dLoad with
    | none => .error "Subclasses of TrackedObject must implement a _load method"
    | some ld =>
      if d.dNew then
        .error "Subclasses of TrackedObject are not allowed to override __new__"
      else if d.dId then
        .error "Subclasses of TrackedObject are not allowed to override id"
      else
        let d1 := if d.dReload.isNone then { d with dReload := some ld } else d
        let d2 := match d1.dInit with
          | some ini => { d1 with dTrackedInit := some ini, dInit := none }
          | none => { d1 with dInit := none }
        .ok d2

/-- Extract the runtime class data from a rewritten class dictionary. -/
def classOf (d : Dct) : Option ClassDef :=
  match d.dLoad, d.dReload with
  | some ld, some rl => some ⟨ld, rl, d.dTrackedInit⟩
  | _, _ => none

/-- Defining a trackable class end to end: run the metaclass checks, then
read the resulting hooks. -/
def mkTrackedClass (bases : Bases) (d : Dct) : Except String ClassDef :=
  match trackedType_new bases d with
  | .error e => .error e
  | .ok d2 =>
    match classOf d2 with
    | some c => .ok c
    | none => .error "abstract"

/-- A tracked instance: `_id` (absent on a fresh allocation, like
`getattr(self, "_id", None)`) and the user payload. -/
structure Inst where
  idField : Option Nat
  payload : Payload
deriving DecidableEq

/-- The mutable state of one trackable class: its `_instances` registry
(id to weak reference, a weak reference being a heap pointer), the heap of
live instances, and the allocator. -/
structure Sys where
  registry : List (Nat × Nat)
  heap : List (Nat × Inst)
  nextPtr : Nat
deriving DecidableEq

/-- `TrackedType.get` (lines 66-70) combined with dereferencing the weak
reference: the live instance registered under `instanceId`, or `none` when
the id is unregistered or its weak reference is stale. -/
def trackedGet (s : Sys) (instanceId : Nat) : Option (Nat × Inst) :=
  match alookup s.registry instanceId with
  | none => none
  | some p =>
    match alookup s.heap p with
    | none => none
    | some inst => some (p, inst)

/-- `TrackedType.clean` (lines 63-64): `del cls._instances[instance_id]`;
`none` models the `KeyError` on an absent key. -/
def trackedClean (s : Sys) (instanceId : Nat) : Option Sys :=
  match alookup s.registry instanceId with
  | none => none
  | some _ => some { s with registry := aremove s.registry instanceId }

/-- Dropping the last strong reference to the instance at `p` and running
collection: the heap entry disappears; the registry keeps its (now stale)
weak reference. -/
def collect (s : Sys) (p : Nat) : Sys :=
  { s with heap := aremove s.heap p }

/-- Which hook an invocation in the trace went to. -/
inductive HookKind where
  | loadCall
  | reloadCall
  | trackedInitCall
deriving DecidableEq

/-- One recorded hook invocation: which hook, and the id, positional and
keyword arguments it received. -/
structure HookCall where
  kind : HookKind
  instanceId : Nat
  args : Args
  kw : Kw
deriving DecidableEq

/-- `TrackedObject.__new__` (lines 108-121).  If a live instance is
registered under the id it is returned; when `force_reload` is truthy,
`reload` runs on it first (with `force_reload` deleted from the keyword
arguments) and an error from `reload` propagates.  Otherwise a fresh
instance is allocated and registered.  Returns the state, the trace and
either the raised error or the chosen instance. -/
def trackedObject_new (c : ClassDef) (s : Sys) (instanceId : Nat)
    (args : Args) (kw : Kw) : Sys × List HookCall × Except Err (Nat × Inst) :=
  match trackedGet s instanceId with
  | some (p, inst) =>
    if kwTruthy kw "force_reload" then
      let kw2 := kwDel kw "force_reload"
      let r := c.reload instanceId args kw2 inst.payload
      let inst2 : Inst := { inst with payload := r.1 }
      let s2 : Sys := { s with heap := aset s.heap p inst2 }
      match r.2 with
      | some err => (s2, [⟨.reloadCall, instanceId, args, kw2⟩], .error err)
      | none => (s2, [⟨.reloadCall, instanceId, args, kw2⟩], .ok (p, inst2))
    else
      (s, [], .ok (p, inst))
  | none =>
    let p := s.nextPtr
    let inst : Inst := { idField := none, payload := 0 }
    let s2 : Sys := { s with
      heap := aset s.heap p inst
      registry := aset s.registry instanceId p
      nextPtr := p + 1 }
    (s2, [], .ok (p, inst))

/-- `TrackedObject.__init__` (lines 89-99): return immediately when `_id`
is already set; otherwise record the id, run `_tracked_init` when callable,
then `_load`.  Returns the instance after the mutations that happened, the
trace, and the first error raised, if any. -/
def trackedObject_init (c : ClassDef) (inst : Inst) (instanceId : Nat)
    (args : Args) (kw : Kw) : Inst × List HookCall × Option Err :=
  if inst.idField.isSome then
    (inst, [], none)
  else
    let inst1 : Inst := { inst with idField := some instanceId }
    match c.trackedInit with
    | some ti =>
      let r1 := ti instanceId args kw inst1.payload
      let inst2 : Inst := { inst1 with payload := r1.1 }
      match r1.2 with
      | some err => (inst2, [⟨.trackedInitCall, instanceId, args, kw⟩], some err)
      | none =>
        let r2 := c.load instanceId args kw inst2.payload
        ({ inst2 with payload := r2.1 },
          [⟨.trackedInitCall, instanceId, args, kw⟩,
           ⟨.loadCall, instanceId, args, kw⟩], r2.2)
    | none =>
      let r2 := c.load instanceId args kw inst1.payload
      ({ inst1 with payload := r2.1 }, [⟨.loadCall, instanceId, args, kw⟩], r2.2)

/-- Errors surfaced by a construction call: a user hook's error, propagated
verbatim, or the `KeyError` `TrackedType.clean` would raise on an absent
registry entry. -/
inductive CErr where
  | user : Err → CErr
  | keyError : CErr
deriving DecidableEq

/-- `TrackedType.__call__` (lines 40-50), the whole construction entry
point: run `__new__` (an error from a forced reload propagates with no
cleanup), delete `force_reload` from the keyword arguments, and when the
obtained object's `_id` is unset run `__init__`, cleaning the registry
entry and re-raising on failure.  Returns the final state, the trace of
hook invocations, and the returned instance pointer or the error. -/
def trackedType_call (c : ClassDef) (s : Sys) (instanceId : Nat)
    (args : Args) (kw : Kw) : Sys × List HookCall × Except CErr Nat :=
  match trackedObject_new c s instanceId args kw with
  | (s1, tr0, .error e) => (s1, tr0, .error (.user e))
  | (s1, tr0, .ok (p, inst)) =>
    let kw2 := kwDel kw "force_reload"
    if inst.idField.isSome then
      (s1, tr0, .ok p)
    else
      match trackedObject_init c inst instanceId args kw2 with
      | (inst2, tr1, e) =>
        let s2 : Sys := { s1 with heap := aset s1.heap p inst2 }
        match e with
        | none => (s2, tr0 ++ tr1, .ok p)
        | some err =>
          match trackedClean s2 instanceId with
          | some s3 => (s3, tr0 ++ tr1, .error (.user err))
          | none => (s2, tr0 ++ tr1, .error .keyError)

/-- The public construction API, `Construct(C, X, args..., forceReload)`:
the flag travels as the `force_reload` keyword argument. -/
def Construct (c : ClassDef) (s : Sys) (instanceId : Nat) (args : Args)
    (kw : Kw) (forceReload : Bool) : Sys × List HookCall × Except CErr Nat :=
  trackedType_call c s instanceId args
    (if forceReload then ("force_reload", 1) :: kw else kw)

/-- Number of `_load` invocations in a trace. -/
def countLoad (tr : List HookCall) : Nat :=
  (tr.filter (fun hc => hc.kind == .loadCall)).length

/-- The empty state: no class has been constructed yet. -/
def emptySys : Sys := ⟨[], [], 0⟩

/-! ### Basic lookup lemmas -/

theorem alookup_aset {α : Type} (l : List (Nat × α)) (k : Nat) (v : α) :
    alookup (aset l k v) k = some v := by
  simp [alookup, aset, List.find?]

theorem alookup_aremove {α : Type} (l : List (Nat × α)) (k : Nat) :
    alookup (aremove l k) k = none := by
  induction l with
  | nil => rfl
  | cons hd tl ih =>
    rcases hd with ⟨a, b⟩
    by_cases h : a = k
    · rw [show aremove ((a, b) :: tl) k = aremove tl k by simp [aremove, h]]
      exact ih
    · have hb : (a == k) = false := by simpa using h
      rw [show aremove ((a, b) :: tl) k = (a, b) :: aremove tl k by simp [aremove, h]]
      rw [show alookup ((a, b) :: aremove tl k) k = alookup (aremove tl k) k by
        simp [alookup, List.find?, hb]]
      exact ih

theorem aremove_aset {α : Type} (l : List (Nat × α)) (k : Nat) (v : α) :
    aremove (aset l k v) k = aremove l k := by
  simp [aremove, aset, List.filter_filter]

theorem kwGet_kwDel (kw : Kw) (k : String) :
    kwGet (kwDel kw k) k = none := by
  induction kw with
  | nil => rfl
  | cons hd tl ih =>
    rcases hd with ⟨a, b⟩
    by_cases h : a = k
    · rw [show kwDel ((a, b) :: tl) k = kwDel tl k by simp [kwDel, h]]
      exact ih
    · have hb : (a == k) = false := by simpa using h
      rw [show kwDel ((a, b) :: tl) k = (a, b) :: kwDel tl k by simp [kwDel, h]]
      rw [show kwGet ((a, b) :: kwDel tl k) k = kwGet (kwDel tl k) k by
        simp [kwGet, List.find?, hb]]
      exact ih

theorem kwDel_cons_self (kw : Kw) (v : Nat) :
    kwDel (("force_reload", v) :: kw) "force_reload" = kwDel kw "force_reload" := by
  simp [kwDel]

/-! ### Concrete fixtures used by the witnesses -/

/-- A sample `_load` hook that succeeds. -/
def loadA : Hook := fun i _ _ _ => (100 + i, none)

/-- A sample `reload` hook that succeeds. -/
def reloadA : Hook := fun i _ _ _ => (200 + i, none)

/-- A sample hook that mutates the payload and then raises error `42`. -/
def hookFail : Hook := fun _ _ _ p => (p + 1, some 42)

/-- A sample class with distinct `_load` and `reload` and no saved
`__init__`. -/
def cA : ClassDef := ⟨loadA, reloadA, none⟩

/-- A sample class whose `_load` raises. -/
def cFail : ClassDef := ⟨hookFail, reloadA, none⟩

/-- A sample class whose `reload` raises. -/
def cRelFail : ClassDef := ⟨loadA, hookFail, none⟩

/-- A state with one live, initialised instance of id `5` at pointer `0`. -/
def sLive : Sys := ⟨[(5, 0)], [(0, ⟨some 5, 7⟩)], 1⟩

/-- A class dictionary defining only `_load`. -/
def dctLoadOnly : Dct := ⟨some loadA, false, false, none, none, none⟩

/-! ### The claims -/

/-- Claim C1: while the instance returned by a first construction for id `x`
is still alive, a second construction call returns the identical instance
(the same pointer), leaves the state untouched and allocates nothing — so at
any instant at most one live instance per (class, id) is reachable via the
registry. -/
theorem construct_identity (c : ClassDef) (s : Sys) (x : Nat)
    (args args2 : Args) (kw kw2 : Kw) (pay : Payload)
    (h0 : trackedGet s x = none)
    (hti : c.trackedInit = none)
    (hload : c.load x args (kwDel kw "force_reload") 0 = (pay, none))
    (hfr2 : kwTruthy kw2 "force_reload" = false) :
    (trackedType_call c s x args kw).2.2 = .ok s.nextPtr ∧
    trackedType_call c (trackedType_call c s x args kw).1 x args2 kw2 =
      ((trackedType_call c s x args kw).1, [], .ok s.nextPtr) := by
  have h1 : trackedType_call c s x args kw =
      (⟨aset s.registry x s.nextPtr,
        aset (aset s.heap s.nextPtr ⟨none, 0⟩) s.nextPtr ⟨some x, pay⟩,
        s.nextPtr + 1⟩,
       [⟨.loadCall, x, args, kwDel kw "force_reload"⟩], .ok s.nextPtr) := by
    simp [trackedType_call, trackedObject_new, trackedObject_init, h0, hti, hload]
  rw [h1]
  refine ⟨rfl, ?_⟩
  simp [trackedType_call, trackedObject_new, trackedGet, alookup_aset, hfr2]

/-- Witness for C1: a fresh construction in the empty state followed by a
second construction for the same id. -/
theorem construct_identity_witness :
    trackedGet emptySys 5 = none ∧
    cA.trackedInit = none ∧
    cA.load 5 [] (kwDel [] "force_reload") 0 = (105, none) ∧
    kwTruthy [] "force_reload" = false ∧
    ((trackedType_call cA emptySys 5 [] []).2.2 = .ok emptySys.nextPtr ∧
      trackedType_call cA (trackedType_call cA emptySys 5 [] []).1 5 [] [] =
        ((trackedType_call cA emptySys 5 [] []).1, [], .ok emptySys.nextPtr)) :=
  ⟨rfl, rfl, rfl, rfl, construct_identity cA emptySys 5 [] [] [] [] 105 rfl rfl rfl rfl⟩

/-- Claim C2: when the class body defines no `reload`, the metaclass aliases
`reload` to the body's `_load`; and a forced reload on a live instance runs
`reload` on that same instance with the supplied arguments (without the
flag), returns the same instance, keeps the registry unchanged and leaves
the id field untouched. -/
theorem forced_reload_live (par c : ClassDef) (d : Dct) (ld : Hook)
    (s : Sys) (x p y : Nat) (inst : Inst) (args : Args) (kw : Kw)
    (pay : Payload)
    (hd1 : d.dLoad = some ld) (hd2 : d.dReload = none)
    (hd3 : d.dNew = false) (hd4 : d.dId = false)
    (hr : alookup s.registry x = some p)
    (hh : alookup s.heap p = some inst)
    (hid : inst.idField = some y)
    (hfr : kwTruthy kw "force_reload" = true)
    (hrel : c.reload x args (kwDel kw "force_reload") inst.payload = (pay, none)) :
    (mkTrackedClass (.trackedBase par) d).map (fun cd => (cd.load, cd.reload)) =
      .ok (ld, ld) ∧
    trackedType_call c s x args kw =
      ({ s with heap := aset s.heap p ⟨some y, pay⟩ },
       [⟨.reloadCall, x, args, kwDel kw "force_reload"⟩], .ok p) := by
  constructor
  · rcases hi : d.dInit with _ | ini <;>
      simp [mkTrackedClass, trackedType_new, classOf, Except.map, hd1, hd2, hd3, hd4, hi]
  · simp [trackedType_call, trackedObject_new, trackedGet, hr, hh, hfr, hrel, hid]

/-- Witness for C2: a forced reload of the live instance of id `5` in
`sLive`, on a class whose dictionary defines only `_load`. -/
theorem forced_reload_live_witness :
    dctLoadOnly.dLoad = some loadA ∧ dctLoadOnly.dReload = none ∧
    dctLoadOnly.dNew = false ∧ dctLoadOnly.dId = false ∧
    alookup sLive.registry 5 = some 0 ∧
    alookup sLive.heap 0 = some ⟨some 5, 7⟩ ∧
    (⟨some 5, 7⟩ : Inst).idField = some 5 ∧
    kwTruthy [("force_reload", 1)] "force_reload" = true ∧
    cA.reload 5 [] (kwDel [("force_reload", 1)] "force_reload") 7 = (205, none) ∧
    ((mkTrackedClass (.trackedBase cA) dctLoadOnly).map
        (fun cd => (cd.load, cd.reload)) = .ok (loadA, loadA) ∧
      trackedType_call cA sLive 5 [] [("force_reload", 1)] =
        ({ sLive with heap := aset sLive.heap 0 ⟨some 5, 205⟩ },
         [⟨.reloadCall, 5, [], kwDel [("force_reload", 1)] "force_reload"⟩],
         .ok 0)) :=
  ⟨rfl, rfl, rfl, rfl, rfl, rfl, rfl, rfl, rfl,
    forced_reload_live cA cA dctLoadOnly loadA sLive 5 0 5 ⟨some 5, 7⟩ []
      [("force_reload", 1)] 205 rfl rfl rfl rfl rfl rfl rfl rfl rfl⟩

/-- A `_load` hook that raises on empty positional arguments and succeeds
otherwise. -/
def loadOnce : Hook := fun _ a _ p =>
  match a with
  | [] => (p + 1, some 42)
  | _ => (77, none)

/-- A class whose `_load` fails on empty positional arguments. -/
def cRetry : ClassDef := ⟨loadOnce, reloadA, none⟩

/-- A pre-initialisation hook (a saved user `__init__`) that succeeds. -/
def tiA : Hook := fun _ _ _ p => (p + 10, none)

/-- A class with a saved user `__init__` (`_tracked_init`) hook. -/
def cInit : ClassDef := ⟨loadA, reloadA, some tiA⟩

/-- Claim C3: ordinary construction runs `_load` exactly once per instance:
a fresh construction performs exactly one `_load` call (whether the class
has a `_tracked_init` pre-initialisation hook or not, provided that hook
does not itself raise, and whether `_load` succeeds or raises), and for any
class whatsoever a further non-forced construction call for an id whose
live instance already has its `_id` set performs no hook call at all —
neither the `_tracked_init` pre-initialisation hook nor `_load` runs
again. -/
theorem single_initialization (c : ClassDef) (s s2 : Sys) (x p : Nat)
    (inst : Inst) (args args2 : Args) (kw kw2 : Kw)
    (h0 : trackedGet s x = none)
    (hpre : c.trackedInit = none ∨
      ∃ ti pay1, c.trackedInit = some ti ∧
        ti x args (kwDel kw "force_reload") 0 = (pay1, none))
    (hr : alookup s2.registry x = some p)
    (hh : alookup s2.heap p = some inst)
    (hid : inst.idField.isSome = true)
    (hfr2 : kwTruthy kw2 "force_reload" = false) :
    countLoad (trackedType_call c s x args kw).2.1 = 1 ∧
    (trackedType_call c s2 x args2 kw2).2.1 = [] := by
  constructor
  · rcases hpre with hti | ⟨ti, pay1, hti, hti1⟩
    · rcases hload : c.load x args (kwDel kw "force_reload") 0 with ⟨pay, e⟩
      cases e
      · simp [trackedType_call, trackedObject_new, trackedObject_init, countLoad,
          List.filter, h0, hti, hload]
      · simp [trackedType_call, trackedObject_new, trackedObject_init, countLoad,
          List.filter, trackedClean, alookup_aset, h0, hti, hload]
    · rcases hload : c.load x args (kwDel kw "force_reload") pay1 with ⟨pay, e⟩
      cases e
      · simp [trackedType_call, trackedObject_new, trackedObject_init, countLoad,
          List.filter, h0, hti, hti1, hload]
      · simp [trackedType_call, trackedObject_new, trackedObject_init, countLoad,
          List.filter, trackedClean, alookup_aset, h0, hti, hti1, hload]
  · simp [trackedType_call, trackedObject_new, trackedGet, hr, hh, hid, hfr2]

/-- Witness for C3: a fresh construction from the empty state on a class
with a pre-initialisation hook, and a non-forced construction against the
live initialised instance in `sLive`. -/
theorem single_initialization_witness :
    trackedGet emptySys 5 = none ∧
    (cInit.trackedInit = none ∨
      ∃ ti pay1, cInit.trackedInit = some ti ∧
        ti 5 [] (kwDel [] "force_reload") 0 = (pay1, none)) ∧
    alookup sLive.registry 5 = some 0 ∧
    alookup sLive.heap 0 = some ⟨some 5, 7⟩ ∧
    (⟨some 5, 7⟩ : Inst).idField.isSome = true ∧
    kwTruthy [] "force_reload" = false ∧
    (countLoad (trackedType_call cInit emptySys 5 [] []).2.1 = 1 ∧
      (trackedType_call cInit sLive 5 [] []).2.1 = []) :=
  ⟨rfl, Or.inr ⟨tiA, 10, rfl, rfl⟩, rfl, rfl, rfl, rfl,
    single_initialization cInit emptySys sLive 5 0 ⟨some 5, 7⟩ [] [] [] []
      rfl (Or.inr ⟨tiA, 10, rfl, rfl⟩) rfl rfl rfl rfl⟩

/-- Claim C4: when `_load` raises during the first construction of id `x`,
the very same error propagates to the caller, the registry entry for `x` is
removed, and a subsequent construction call performs a clean first
construction again — it neither returns a broken instance nor hits a
duplicate entry: it succeeds with a freshly allocated instance and runs
`_load` exactly once. -/
theorem load_failure_retryable (c : ClassDef) (s : Sys) (x : Nat)
    (args args2 : Args) (kw kw2 : Kw) (pay pay2 : Payload) (e : Err)
    (h0 : trackedGet s x = none) (hti : c.trackedInit = none)
    (hload : c.load x args (kwDel kw "force_reload") 0 = (pay, some e))
    (hload2 : c.load x args2 (kwDel kw2 "force_reload") 0 = (pay2, none)) :
    (trackedType_call c s x args kw).2.2 = .error (.user e) ∧
    alookup (trackedType_call c s x args kw).1.registry x = none ∧
    (trackedType_call c (trackedType_call c s x args kw).1 x args2 kw2).2.2 =
      .ok (trackedType_call c s x args kw).1.nextPtr ∧
    countLoad
      (trackedType_call c (trackedType_call c s x args kw).1 x args2 kw2).2.1
      = 1 := by
  have h1 : trackedType_call c s x args kw =
      (⟨aremove (aset s.registry x s.nextPtr) x,
        aset (aset s.heap s.nextPtr ⟨none, 0⟩) s.nextPtr ⟨some x, pay⟩,
        s.nextPtr + 1⟩,
       [⟨.loadCall, x, args, kwDel kw "force_reload"⟩], .error (.user e)) := by
    simp [trackedType_call, trackedObject_new, trackedObject_init, trackedClean,
      alookup_aset, h0, hti, hload]
  have h2 : trackedGet
      ⟨aremove (aset s.registry x s.nextPtr) x,
        aset (aset s.heap s.nextPtr ⟨none, 0⟩) s.nextPtr ⟨some x, pay⟩,
        s.nextPtr + 1⟩ x = none := by
    simp [trackedGet, alookup_aremove]
  rw [h1]
  refine ⟨rfl, by simp [alookup_aremove], ?_, ?_⟩
  · simp [trackedType_call, trackedObject_new, trackedObject_init, h2, hti, hload2]
  · simp [trackedType_call, trackedObject_new, trackedObject_init, countLoad,
      List.filter, h2, hti, hload2]

/-- Witness for C4: `cRetry` fails `_load` on empty arguments and succeeds
on `[9]`; the failed id `5` is retryable. -/
theorem load_failure_retryable_witness :
    trackedGet emptySys 5 = none ∧ cRetry.trackedInit = none ∧
    cRetry.load 5 [] (kwDel [] "force_reload") 0 = (1, some 42) ∧
    cRetry.load 5 [9] (kwDel [] "force_reload") 0 = (77, none) ∧
    ((trackedType_call cRetry emptySys 5 [] []).2.2 = .error (.user 42) ∧
      alookup (trackedType_call cRetry emptySys 5 [] []).1.registry 5 = none ∧
      (trackedType_call cRetry (trackedType_call cRetry emptySys 5 [] []).1
          5 [9] []).2.2 =
        .ok (trackedType_call cRetry emptySys 5 [] []).1.nextPtr ∧
      countLoad
        (trackedType_call cRetry (trackedType_call cRetry emptySys 5 [] []).1
          5 [9] []).2.1 = 1) :=
  ⟨rfl, rfl, rfl, rfl,
    load_failure_retryable cRetry emptySys 5 [] [9] [] [] 1 77 42
      rfl rfl rfl rfl⟩

/-- Claim C5: when `reload` raises during a forced reload of a live
instance, the error propagates to the caller, the instance — with whatever
mutations `reload` made — stays registered (the registry is unchanged), and
a later non-forced construction call still returns that same instance. -/
theorem reload_failure_keeps_instance (c : ClassDef) (s : Sys) (x p y : Nat)
    (inst : Inst) (args args2 : Args) (kw kw2 : Kw) (pay : Payload) (e : Err)
    (hr : alookup s.registry x = some p)
    (hh : alookup s.heap p = some inst)
    (hid : inst.idField = some y)
    (hfr : kwTruthy kw "force_reload" = true)
    (hrel : c.reload x args (kwDel kw "force_reload") inst.payload =
      (pay, some e))
    (hfr2 : kwTruthy kw2 "force_reload" = false) :
    trackedType_call c s x args kw =
      ({ s with heap := aset s.heap p ⟨some y, pay⟩ },
       [⟨.reloadCall, x, args, kwDel kw "force_reload"⟩], .error (.user e)) ∧
    trackedType_call c { s with heap := aset s.heap p ⟨some y, pay⟩ }
        x args2 kw2 =
      ({ s with heap := aset s.heap p ⟨some y, pay⟩ }, [], .ok p) := by
  constructor
  · simp [trackedType_call, trackedObject_new, trackedGet, hr, hh, hfr, hrel, hid]
  · simp [trackedType_call, trackedObject_new, trackedGet, alookup_aset, hr, hfr2]

/-- Witness for C5: a failing forced reload of the live instance of id `5`
in `sLive`, followed by a non-forced construction returning it. -/
theorem reload_failure_keeps_instance_witness :
    alookup sLive.registry 5 = some 0 ∧
    alookup sLive.heap 0 = some ⟨some 5, 7⟩ ∧
    (⟨some 5, 7⟩ : Inst).idField = some 5 ∧
    kwTruthy [("force_reload", 1)] "force_reload" = true ∧
    cRelFail.reload 5 [] (kwDel [("force_reload", 1)] "force_reload") 7 =
      (8, some 42) ∧
    kwTruthy [] "force_reload" = false ∧
    (trackedType_call cRelFail sLive 5 [] [("force_reload", 1)] =
        ({ sLive with heap := aset sLive.heap 0 ⟨some 5, 8⟩ },
         [⟨.reloadCall, 5, [], kwDel [("force_reload", 1)] "force_reload"⟩],
         .error (.user 42)) ∧
      trackedType_call cRelFail { sLive with heap := aset sLive.heap 0 ⟨some 5, 8⟩ }
          5 [] [] =
        ({ sLive with heap := aset sLive.heap 0 ⟨some 5, 8⟩ }, [], .ok 0)) :=
  ⟨rfl, rfl, rfl, rfl, rfl, rfl,
    reload_failure_keeps_instance cRelFail sLive 5 0 5 ⟨some 5, 7⟩ [] []
      [("force_reload", 1)] [] 8 42 rfl rfl rfl rfl rfl rfl⟩

/-- Claim C6: once the instance registered for id `x` is collected (its
weak reference no longer resolves), the stale entry reads as absent, and
the next construction call builds a new, freshly initialised instance —
running `_load` again — and silently overwrites the stale registry entry
with the new instance. -/
theorem reclaim_and_recreate (c : ClassDef) (s : Sys) (x p : Nat)
    (args : Args) (kw : Kw) (pay : Payload)
    (hr : alookup s.registry x = some p)
    (hp : p ≠ s.nextPtr)
    (hti : c.trackedInit = none)
    (hload : c.load x args (kwDel kw "force_reload") 0 = (pay, none)) :
    trackedGet (collect s p) x = none ∧
    (trackedType_call c (collect s p) x args kw).2.2 = .ok s.nextPtr ∧
    s.nextPtr ≠ p ∧
    countLoad (trackedType_call c (collect s p) x args kw).2.1 = 1 ∧
    alookup (trackedType_call c (collect s p) x args kw).1.registry x =
      some s.nextPtr := by
  refine ⟨?_, ?_, Ne.symm hp, ?_, ?_⟩
  · simp [trackedGet, collect, alookup_aremove, hr]
  · simp [trackedType_call, trackedObject_new, trackedObject_init, trackedGet,
      collect, alookup_aremove, hr, hti, hload]
  · simp [trackedType_call, trackedObject_new, trackedObject_init, trackedGet,
      countLoad, List.filter, collect, alookup_aremove, hr, hti, hload]
  · simp [trackedType_call, trackedObject_new, trackedObject_init, trackedGet,
      collect, alookup_aremove, alookup_aset, hr, hti, hload]

/-- Witness for C6: collecting the live instance of `sLive` and
reconstructing id `5`. -/
theorem reclaim_and_recreate_witness :
    alookup sLive.registry 5 = some 0 ∧ (0 : Nat) ≠ sLive.nextPtr ∧
    cA.trackedInit = none ∧
    cA.load 5 [] (kwDel [] "force_reload") 0 = (105, none) ∧
    (trackedGet (collect sLive 0) 5 = none ∧
      (trackedType_call cA (collect sLive 0) 5 [] []).2.2 = .ok sLive.nextPtr ∧
      sLive.nextPtr ≠ 0 ∧
      countLoad (trackedType_call cA (collect sLive 0) 5 [] []).2.1 = 1 ∧
      alookup (trackedType_call cA (collect sLive 0) 5 [] []).1.registry 5 =
        some sLive.nextPtr) :=
  ⟨rfl, by decide, rfl, rfl,
    reclaim_and_recreate cA sLive 5 0 [] [] 105 rfl (by decide) rfl rfl⟩

/-- Helper: the trace of `TrackedObject.__init__` contains no `reload`
invocation. -/
theorem init_trace_no_reload (c : ClassDef) (inst : Inst) (x : Nat)
    (args : Args) (kw : Kw) (hc : HookCall)
    (hmem : hc ∈ (trackedObject_init c inst x args kw).2.1) :
    hc.kind ≠ HookKind.reloadCall := by
  rcases hif : inst.idField with _ | y
  · rcases hti : c.trackedInit with _ | ti
    · rcases hr2 : c.load x args kw inst.payload with ⟨pay, e⟩
      simp [trackedObject_init, hif, hti, hr2] at hmem
      subst hmem; simp
    · rcases hr1 : ti x args kw inst.payload with ⟨pay1, e1⟩
      cases e1
      · rcases hr2 : c.load x args kw pay1 with ⟨pay2, e2⟩
        simp [trackedObject_init, hif, hti, hr1, hr2] at hmem
        rcases hmem with rfl | rfl <;> simp
      · simp [trackedObject_init, hif, hti, hr1] at hmem
        subst hmem; simp
  · simp [trackedObject_init, hif] at hmem

/-- Helper: on a fresh (or stale) id the whole construction trace is the
trace of `TrackedObject.__init__` on the placeholder instance. -/
theorem call_trace_fresh (c : ClassDef) (s : Sys) (x : Nat) (args : Args)
    (kw : Kw) (h0 : trackedGet s x = none) :
    (trackedType_call c s x args kw).2.1 =
      (trackedObject_init c ⟨none, 0⟩ x args (kwDel kw "force_reload")).2.1 := by
  rcases hinit : trackedObject_init c ⟨none, 0⟩ x args (kwDel kw "force_reload")
    with ⟨inst2, tr1, e⟩
  cases e
  · simp [trackedType_call, trackedObject_new, h0, hinit]
  · simp [trackedType_call, trackedObject_new, trackedClean, alookup_aset,
      h0, hinit]

/-- Claim C7: with no live instance for id `x`, a forced construction call
behaves exactly as a normal first construction — identical final state,
trace and result — and the initialisation executed is `_load` (and possibly
the pre-initialisation hook), never `reload`. -/
theorem forced_reload_absent_id (c : ClassDef) (s : Sys) (x : Nat)
    (args : Args) (kw : Kw)
    (h0 : trackedGet s x = none) :
    Construct c s x args kw true = Construct c s x args kw false ∧
    ∀ hc ∈ (Construct c s x args kw false).2.1,
      hc.kind ≠ HookKind.reloadCall := by
  constructor
  · simp [Construct, trackedType_call, trackedObject_new, h0, kwDel_cons_self]
  · intro hc hmem
    have h3 : (Construct c s x args kw false).2.1 =
        (trackedObject_init c ⟨none, 0⟩ x args (kwDel kw "force_reload")).2.1 := by
      simpa [Construct] using call_trace_fresh c s x args kw h0
    rw [h3] at hmem
    exact init_trace_no_reload c ⟨none, 0⟩ x args (kwDel kw "force_reload") hc hmem

/-- Witness for C7: a forced construction of the absent id `5` from the
empty state. -/
theorem forced_reload_absent_id_witness :
    trackedGet emptySys 5 = none ∧
    (Construct cA emptySys 5 [] [] true = Construct cA emptySys 5 [] [] false ∧
      ∀ hc ∈ (Construct cA emptySys 5 [] [] false).2.1,
        hc.kind ≠ HookKind.reloadCall) :=
  ⟨rfl, forced_reload_absent_id cA emptySys 5 [] [] rfl⟩

/-- A class dictionary defining none of the tracked names. -/
def dctEmpty : Dct := ⟨none, false, false, none, none, none⟩

/-- Claim C8: the contract is enforced when the class is defined: a class
body without `_load`, or one that overrides `__new__` or `id`, makes
`TrackedType.__new__` raise, so the class never comes into existence and no
instance of it can ever be constructed. -/
theorem contract_enforced_at_definition (par : ClassDef) (d : Dct)
    (h : d.dLoad = none ∨ d.dNew = true ∨ d.dId = true) :
    ∃ msg : String, trackedType_new (.trackedBase par) d = .error msg := by
  rcases h with h | h | h
  · exact ⟨"Subclasses of TrackedObject must implement a _load method",
      by simp [trackedType_new, h]⟩
  · rcases hl : d.dLoad with _ | ld
    · exact ⟨"Subclasses of TrackedObject must implement a _load method",
        by simp [trackedType_new, hl]⟩
    · exact ⟨"Subclasses of TrackedObject are not allowed to override __new__",
        by simp [trackedType_new, hl, h]⟩
  · rcases hl : d.dLoad with _ | ld
    · exact ⟨"Subclasses of TrackedObject must implement a _load method",
        by simp [trackedType_new, hl]⟩
    · cases hn : d.dNew
      · exact ⟨"Subclasses of TrackedObject are not allowed to override id",
          by simp [trackedType_new, hl, hn, h]⟩
      · exact ⟨"Subclasses of TrackedObject are not allowed to override __new__",
          by simp [trackedType_new, hl, hn]⟩

/-- Witness for C8: a class body defining no `_load` at all. -/
theorem contract_enforced_at_definition_witness :
    (dctEmpty.dLoad = none ∨ dctEmpty.dNew = true ∨ dctEmpty.dId = true) ∧
    ∃ msg : String, trackedType_new (.trackedBase cA) dctEmpty = .error msg :=
  ⟨Or.inl rfl, contract_enforced_at_definition cA dctEmpty (Or.inl rfl)⟩

/-- Whether a definition-time result is a successfully created class. -/
def defOk (r : Except String Dct) : Bool :=
  match r with
  | .ok _ => true
  | .error _ => false

/-- Claim C10: the definition-time check inspects only the new class body:
a subclass of a trackable class whose own dictionary lacks `_load` fails to
be defined whatever the parent provides (an inherited `_load` is never
consulted), while declaring `_load` in the body — overriding neither
`__new__` nor `id` — makes the definition succeed. -/
theorem subclass_needs_own_load :
    (∀ (par : ClassDef) (d : Dct), d.dLoad = none →
      trackedType_new (.trackedBase par) d =
        .error "Subclasses of TrackedObject must implement a _load method") ∧
    (∀ (par : ClassDef) (d : Dct) (ld : Hook), d.dLoad = some ld →
      d.dNew = false → d.dId = false →
      defOk (trackedType_new (.trackedBase par) d) = true) := by
  constructor
  · intro par d h
    simp [trackedType_new, h]
  · intro par d ld h1 h2 h3
    rcases hi : d.dInit with _ | ini <;> rcases hrl : d.dReload with _ | rl <;>
      simp [trackedType_new, defOk, h1, h2, h3, hi, hrl]

/-- Witness for C10: under the parent class `cA`, an empty body fails and a
body declaring `_load` succeeds. -/
theorem subclass_needs_own_load_witness :
    (dctEmpty.dLoad = none ∧
      trackedType_new (.trackedBase cA) dctEmpty =
        .error "Subclasses of TrackedObject must implement a _load method") ∧
    (dctLoadOnly.dLoad = some loadA ∧
      defOk (trackedType_new (.trackedBase cA) dctLoadOnly) = true) :=
  ⟨⟨rfl, subclass_needs_own_load.1 cA dctEmpty rfl⟩,
   ⟨rfl, subclass_needs_own_load.2 cA dctLoadOnly loadA rfl rfl rfl⟩⟩

/-- Helper: every hook invocation made by `TrackedObject.__new__` received
the keyword arguments with `force_reload` deleted. -/
theorem new_trace_kw (c : ClassDef) (s : Sys) (x : Nat) (args : Args)
    (kw : Kw) (hc : HookCall)
    (hmem : hc ∈ (trackedObject_new c s x args kw).2.1) :
    hc.kw = kwDel kw "force_reload" := by
  rcases hg : trackedGet s x with _ | ⟨p, inst⟩
  · simp [trackedObject_new, hg] at hmem
  · cases hfr : kwTruthy kw "force_reload"
    · simp [trackedObject_new, hg, hfr] at hmem
    · rcases hrel : c.reload x args (kwDel kw "force_reload") inst.payload
        with ⟨pay, e⟩
      cases e <;>
      · simp [trackedObject_new, hg, hfr, hrel] at hmem
        subst hmem; rfl

/-- Helper: every hook invocation made by `TrackedObject.__init__` received
exactly the keyword arguments given to it. -/
theorem init_trace_kw (c : ClassDef) (inst : Inst) (x : Nat) (args : Args)
    (kw : Kw) (hc : HookCall)
    (hmem : hc ∈ (trackedObject_init c inst x args kw).2.1) :
    hc.kw = kw := by
  rcases hif : inst.idField with _ | y
  · rcases hti : c.trackedInit with _ | ti
    · rcases hr2 : c.load x args kw inst.payload with ⟨pay, e⟩
      simp [trackedObject_init, hif, hti, hr2] at hmem
      subst hmem; rfl
    · rcases hr1 : ti x args kw inst.payload with ⟨pay1, e1⟩
      cases e1
      · rcases hr2 : c.load x args kw pay1 with ⟨pay2, e2⟩
        simp [trackedObject_init, hif, hti, hr1, hr2] at hmem
        rcases hmem with rfl | rfl <;> rfl
      · simp [trackedObject_init, hif, hti, hr1] at hmem
        subst hmem; rfl
  · simp [trackedObject_init, hif] at hmem

/-- Helper: every hook invocation a construction call performs received the
keyword arguments with `force_reload` deleted. -/
theorem call_trace_kw (c : ClassDef) (s : Sys) (x : Nat) (args : Args)
    (kw : Kw) (hc : HookCall)
    (hmem : hc ∈ (trackedType_call c s x args kw).2.1) :
    hc.kw = kwDel kw "force_reload" := by
  unfold trackedType_call at hmem
  rcases h1 : trackedObject_new c s x args kw with ⟨s1, tr0, r⟩
  rw [h1] at hmem
  have htr0 : ∀ hc2 ∈ tr0, hc2.kw = kwDel kw "force_reload" := fun hc2 hm2 =>
    new_trace_kw c s x args kw hc2 (by rw [h1]; exact hm2)
  rcases r with e | ⟨p, inst⟩
  · simp at hmem
    exact htr0 hc hmem
  · by_cases hif : inst.idField.isSome
    · simp [hif] at hmem
      exact htr0 hc hmem
    · rcases h2 : trackedObject_init c inst x args (kwDel kw "force_reload")
        with ⟨inst2, tr1, e⟩
      have htr1 : ∀ hc2 ∈ tr1, hc2.kw = kwDel kw "force_reload" := fun hc2 hm2 =>
        init_trace_kw c inst x args (kwDel kw "force_reload") hc2
          (by rw [h2]; exact hm2)
      rcases e with _ | err
      · simp [hif, h2] at hmem
        rcases hmem with hmem | hmem
        · exact htr0 hc hmem
        · exact htr1 hc hmem
      · rcases h3 : trackedClean { s1 with heap := aset s1.heap p inst2 } x
          with _ | s3
        · simp [hif, h2, h3] at hmem
          rcases hmem with hmem | hmem
          · exact htr0 hc hmem
          · exact htr1 hc hmem
        · simp [hif, h2, h3] at hmem
          rcases hmem with hmem | hmem
          · exact htr0 hc hmem
          · exact htr1 hc hmem

/-- Claim C9: the `force_reload` flag is never forwarded: whatever the
construction call and its arguments, every `_load`, `reload` or
`_tracked_init` invocation it performs receives keyword arguments in which
`force_reload` does not occur, on both the first-construction and the
forced-reload paths. -/
theorem force_reload_never_forwarded (c : ClassDef) (s : Sys) (x : Nat)
    (args : Args) (kw : Kw) (hc : HookCall)
    (hmem : hc ∈ (trackedType_call c s x args kw).2.1) :
    kwGet hc.kw "force_reload" = none := by
  rw [call_trace_kw c s x args kw hc hmem]
  exact kwGet_kwDel kw "force_reload"

/-- Witness for C9: the `reload` invocation of a forced reload on `sLive`
received no `force_reload` key. -/
theorem force_reload_never_forwarded_witness :
    (⟨HookKind.reloadCall, 5, [], []⟩ : HookCall) ∈
      (trackedType_call cA sLive 5 [] [("force_reload", 1)]).2.1 ∧
    kwGet (⟨HookKind.reloadCall, 5, [], []⟩ : HookCall).kw "force_reload" =
      none :=
  have hm : (⟨HookKind.reloadCall, 5, [], []⟩ : HookCall) ∈
      (trackedType_call cA sLive 5 [] [("force_reload", 1)]).2.1 := by decide
  ⟨hm, force_reload_never_forwarded cA sLive 5 [] [("force_reload", 1)] _ hm⟩

end PyTracking
